import Mathlib

/-!
Shallow embedding of the booking lifecycle engine of `app.py`
(Rentalhome-hosting-AWS): the MongoDB collections `properties`,
`bookings`, `notifications` become Lean lists of structures, and the
Flask routes `book_property`, `owner_approve_request`,
`owner_reject_request`, `mark_notification_read` become pure state
transformers.  Mongo `find_one` is `List.find?`, `update_one`/`update_many`
with an `_id` / filter become a conditional `List.map`, and `insert_one`
appends a fresh document (Mongo enforces `_id` uniqueness; the embedding
generates ids from a counter and a well-formedness predicate records
uniqueness).  `datetime.utcnow()` is a clock field of the state.  The SMTP
helper `send_email` swallows every exception and each call site wraps it in
a further try/except, so the transport outcome is threaded as an explicit
parameter that the routes discard exactly as the source does.
-/

namespace Rental

/-- Booking status strings "PENDING" / "APPROVED" / "REJECTED" of `app.py`. -/
inductive Status where
  | PENDING
  | APPROVED
  | REJECTED
deriving DecidableEq, Repr

instance : BEq Status := ⟨fun a b => decide (a = b)⟩

instance : LawfulBEq Status where
  eq_of_beq h := of_decide_eq_true h
  rfl := by intro a; simp [BEq.beq]

/-- A document of the `bookings` collection (fields of the dict built in
`book_property`). -/
structure Booking where
  id : Nat
  propertyId : Nat
  tenantEmail : String
  tenantName : String
  createdAt : Nat
  status : Status
deriving DecidableEq, Repr

/-- A review pushed onto a property's `reviews` array by `add_review`
(the numeric rating is scaled to an integer; the booking engine never
reads or writes reviews). -/
structure Review where
  by_ : String
  email : String
  rating : Int
  comment : String
  createdAt : Nat
deriving DecidableEq, Repr

/-- A document of the `properties` collection: the fields inserted by
`owner_add` / `generate_fake_props` plus the derived `booked` /
`booked_by` pair written by `owner_approve_request`. -/
structure Property where
  id : Nat
  ownerEmail : String
  title : String
  description : String
  location : String
  price : Nat
  rooms : Nat
  images : List String
  reviews : List Review
  booked : Bool
  bookedBy : Option String
deriving DecidableEq, Repr

/-- A document of the `notifications` collection.  `book_property` inserts
one with only `owner_email`; the approve/reject routes insert one carrying
both `owner_email` and `tenant_email`, so both fields are optional. -/
structure Notification where
  id : Nat
  ownerEmail : Option String
  tenantEmail : Option String
  propertyId : Option Nat
  bookingId : Option Nat
  message : String
  timestamp : Nat
  read : Bool
deriving DecidableEq, Repr

/-- A document of the `users` collection (only `email` and `name` are read
by the booking routes). -/
structure User where
  email : String
  name : Option String
deriving DecidableEq, Repr

/-- The persistent state: the four collections, a counter generating fresh
`_id` values, and a clock standing for `datetime.utcnow()`. -/
structure DB where
  users : List User
  props : List Property
  bookings : List Booking
  notifs : List Notification
  nextId : Nat
  now : Nat
deriving DecidableEq, Repr

/-- Transport outcome of one SMTP attempt: `send_email` either completes or
raises inside its own try/except (and each caller adds another one). -/
inductive SendOutcome where
  | delivered
  | raised
deriving DecidableEq, Repr

/-- Lines 110-114 of `app.py`: `send_email` catches every exception and
returns `None` either way; a failure is only printed. -/
def send_email (o : SendOutcome) : Unit :=
  match o with
  | .delivered => ()
  | .raised => ()

/-- Caller-visible outcome of `book_property`. -/
inductive RequestResult where
  | propertyNotFound
  | requested (bookingId : Nat)
deriving DecidableEq, Repr

/-- Caller-visible outcome of `owner_approve_request`. -/
inductive ApproveResult where
  | bookingNotFound
  | notAuthorized
  | propertyAlreadyBooked
  | approved
deriving DecidableEq, Repr

/-- Caller-visible outcome of `owner_reject_request`. -/
inductive RejectResult where
  | bookingNotFound
  | notAuthorized
  | rejected
deriving DecidableEq, Repr

/-- Mongo `bookings_col.find_one({"_id": bookingId})`. -/
def findBooking (db : DB) (bookingId : Nat) : Option Booking :=
  db.bookings.find? (fun b => b.id == bookingId)

/-- Mongo `props_col.find_one({"_id": propertyId})`. -/
def findProperty (db : DB) (propertyId : Nat) : Option Property :=
  db.props.find? (fun p => p.id == propertyId)

/-- Mongo `props_col.find_one({"_id": pid, "owner_email": owner})` — the
ownership check of the approve/reject routes. -/
def findPropertyOwned (db : DB) (propertyId : Nat) (owner : String) :
    Option Property :=
  db.props.find? (fun p => p.id == propertyId && p.ownerEmail == owner)

/-- The filter `{"property_id": pid, "status": "APPROVED"}` used both by the
exclusivity check and to count a property's APPROVED bookings. -/
def isApprovedFor (propertyId : Nat) (b : Booking) : Bool :=
  b.propertyId == propertyId && b.status == Status.APPROVED

/-- Mongo `bookings_col.find_one({"property_id": pid, "status": "APPROVED"})`
— the exclusivity check (spec `findApproved`).  Note the filter does not
exclude any particular `_id`. -/
def findApproved (db : DB) (propertyId : Nat) : Option Booking :=
  db.bookings.find? (isApprovedFor propertyId)

/-- Mongo `users_col.find_one({"email": e})`. -/
def findUser (db : DB) (email : String) : Option User :=
  db.users.find? (fun u => u.email == email)

/-- Mongo `bookings_col.update_one({"_id": bid}, {"$set": {"status": s}})`
(an `_id` filter matches at most one document when ids are unique). -/
def setBookingStatus (db : DB) (bookingId : Nat) (s : Status) : DB :=
  { db with bookings :=
      db.bookings.map (fun b => if b.id == bookingId then { b with status := s } else b) }

/-- Mongo `props_col.update_one({"_id": pid}, {"$set": {"booked": True,
"booked_by": tenant}})` of the approve route. -/
def setPropertyBooked (db : DB) (propertyId : Nat) (tenant : String) : DB :=
  { db with props :=
      db.props.map (fun p =>
        if p.id == propertyId then { p with booked := true, bookedBy := some tenant } else p) }

/-- Mongo `bookings_col.update_many({"property_id": pid, "status": "PENDING",
"_id": {"$ne": keep}}, {"$set": {"status": "REJECTED"}})` — the auto-reject
bulk write of the approve route. -/
def rejectOtherPending (db : DB) (propertyId : Nat) (keep : Nat) : DB :=
  { db with bookings :=
      db.bookings.map (fun b =>
        if b.propertyId == propertyId && b.status == Status.PENDING && !(b.id == keep)
        then { b with status := Status.REJECTED } else b) }

/-- Mongo `notifications_col.insert_one(doc)`: append the document with a
fresh `_id` and bump the id counter. -/
def insertNotification (db : DB) (ownerEmail tenantEmail : Option String)
    (propertyId bookingId : Option Nat) (message : String) : DB :=
  { db with
    notifs := db.notifs ++
      [{ id := db.nextId, ownerEmail := ownerEmail, tenantEmail := tenantEmail,
         propertyId := propertyId, bookingId := bookingId, message := message,
         timestamp := db.now, read := false }],
    nextId := db.nextId + 1 }

/-- The tenant display name computed in `book_property`:
`tenant.get("name", email) if tenant else email`. -/
def tenantDisplayName (db : DB) (email : String) : String :=
  match findUser db email with
  | some u => u.name.getD email
  | none => email

/-- Route `POST /book/<property_id>` (`book_property`, app.py 414-464),
entered with a logged-in tenant session.  Verifies the property exists,
inserts a PENDING booking stamped with the current time, inserts one
notification for the property owner, and attempts a best-effort email whose
outcome is discarded.  There is no check against an existing APPROVED
booking. -/
def book_property (db : DB) (sessionEmail : String) (propertyId : Nat)
    (mail : SendOutcome) : DB × RequestResult :=
  match findProperty db propertyId with
  | none => (db, .propertyNotFound)
  | some prop =>
    let tenantName := tenantDisplayName db sessionEmail
    let bookingId := db.nextId
    let db1 : DB :=
      { db with
        bookings := db.bookings ++
          [{ id := bookingId, propertyId := propertyId, tenantEmail := sessionEmail,
             tenantName := tenantName, createdAt := db.now, status := Status.PENDING }],
        nextId := db.nextId + 1 }
    let db2 := insertNotification db1 (some prop.ownerEmail) none (some propertyId) none
      ("New booking request from " ++ tenantName ++ " (" ++ sessionEmail ++ ")")
    let _ := send_email mail
    (db2, .requested bookingId)

/-- Route `POST /owner/approve/<booking_id>` (`owner_approve_request`,
app.py 513-571), entered with a logged-in owner session.  Looks up the
booking, checks the session user owns the referenced property, refuses when
any APPROVED booking exists for the property, then sets the booking
APPROVED, marks the property booked, auto-rejects the other PENDING
bookings, inserts one notification for the tenant and attempts a
best-effort email. -/
def owner_approve_request (db : DB) (sessionEmail : String) (bookingId : Nat)
    (mail : SendOutcome) : DB × ApproveResult :=
  match findBooking db bookingId with
  | none => (db, .bookingNotFound)
  | some booking =>
    match findPropertyOwned db booking.propertyId sessionEmail with
    | none => (db, .notAuthorized)
    | some _prop =>
      match findApproved db booking.propertyId with
      | some _ => (db, .propertyAlreadyBooked)
      | none =>
        let db1 := setBookingStatus db booking.id Status.APPROVED
        let db2 := setPropertyBooked db1 booking.propertyId booking.tenantEmail
        let db3 := rejectOtherPending db2 booking.propertyId booking.id
        let db4 := insertNotification db3 (some sessionEmail) (some booking.tenantEmail)
          (some booking.propertyId) (some booking.id)
          "Your booking has been APPROVED by the owner."
        let _ := send_email mail
        (db4, .approved)

/-- Route `POST /owner/reject/<booking_id>` (`owner_reject_request`,
app.py 574-618), entered with a logged-in owner session.  Looks up the
booking, checks ownership, then sets the status to REJECTED without
examining the current status, inserts one notification for the tenant and
attempts a best-effort email. -/
def owner_reject_request (db : DB) (sessionEmail : String) (bookingId : Nat)
    (mail : SendOutcome) : DB × RejectResult :=
  match findBooking db bookingId with
  | none => (db, .bookingNotFound)
  | some booking =>
    match findPropertyOwned db booking.propertyId sessionEmail with
    | none => (db, .notAuthorized)
    | some _prop =>
      let db1 := setBookingStatus db booking.id Status.REJECTED
      let db2 := insertNotification db1 (some sessionEmail) (some booking.tenantEmail)
        (some booking.propertyId) (some booking.id)
        "Your booking has been REJECTED by the owner."
      let _ := send_email mail
      (db2, .rejected)

/-- Route `POST /notifications/read/<notif_id>` (`mark_notification_read`,
app.py 631-639).  After the login check the session user is never consulted:
the route sets `read` on the matching notification whoever the caller is. -/
def mark_notification_read (db : DB) (_sessionEmail : String) (notifId : Nat) : DB :=
  { db with notifs :=
      db.notifs.map (fun n => if n.id == notifId then { n with read := true } else n) }

/-- One caller-facing booking operation together with its acting session
identity and the transport outcome of its email attempt. -/
inductive Op where
  | request (sessionEmail : String) (propertyId : Nat) (mail : SendOutcome)
  | approve (sessionEmail : String) (bookingId : Nat) (mail : SendOutcome)
  | reject (sessionEmail : String) (bookingId : Nat) (mail : SendOutcome)
deriving DecidableEq, Repr

/-- Apply one operation to the state, discarding the caller-visible result. -/
def step (db : DB) : Op → DB
  | .request s p m => (book_property db s p m).1
  | .approve s b m => (owner_approve_request db s b m).1
  | .reject s b m => (owner_reject_request db s b m).1

/-- Apply a sequence of operations left to right. -/
def run (db : DB) (ops : List Op) : DB :=
  ops.foldl step db

/-- Number of APPROVED bookings a property has. -/
def approvedCount (db : DB) (propertyId : Nat) : Nat :=
  db.bookings.countP (isApprovedFor propertyId)

/-- Status of the booking `find_one({"_id": bid})` returns, if any. -/
def bookingStatus (db : DB) (bookingId : Nat) : Option Status :=
  (findBooking db bookingId).map Booking.status

/-- Well-formedness maintained by Mongo's unique `_id` index: booking ids
are distinct and below the fresh-id counter. -/
def WF (db : DB) : Prop :=
  (db.bookings.map Booking.id).Nodup ∧ ∀ b ∈ db.bookings, b.id < db.nextId

instance : DecidablePred WF := fun db => by
  unfold WF; infer_instance

/-! Helper lemmas about the store primitives. -/

theorem insertNotification_bookings (db : DB) (o t : Option String) (p b : Option Nat)
    (m : String) : (insertNotification db o t p b m).bookings = db.bookings := rfl

theorem insertNotification_props (db : DB) (o t : Option String) (p b : Option Nat)
    (m : String) : (insertNotification db o t p b m).props = db.props := rfl

theorem setPropertyBooked_bookings (db : DB) (pid : Nat) (t : String) :
    (setPropertyBooked db pid t).bookings = db.bookings := rfl

theorem setBookingStatus_props (db : DB) (bid : Nat) (s : Status) :
    (setBookingStatus db bid s).props = db.props := rfl

theorem rejectOtherPending_props (db : DB) (pid keep : Nat) :
    (rejectOtherPending db pid keep).props = db.props := rfl

theorem isApprovedFor_iff (pid : Nat) (b : Booking) :
    isApprovedFor pid b = true ↔ b.propertyId = pid ∧ b.status = Status.APPROVED := by
  simp [isApprovedFor]

/-- A booking-level map that keeps every id keeps the list of ids. -/
theorem map_id_of_id_preserved (l : List Booking) (f : Booking → Booking)
    (hf : ∀ b, (f b).id = b.id) :
    (l.map f).map Booking.id = l.map Booking.id := by
  rw [List.map_map]
  exact List.map_congr_left (fun a _ => hf a)

/-- Searching a booking by id commutes with a booking-level map that keeps
every id. -/
theorem find?_id_map (l : List Booking) (f : Booking → Booking)
    (hf : ∀ b, (f b).id = b.id) (i : Nat) :
    (l.map f).find? (fun b => b.id == i) = (l.find? (fun b => b.id == i)).map f := by
  have hp : ((fun b : Booking => b.id == i) ∘ f) = (fun b : Booking => b.id == i) := by
    funext b
    simp [Function.comp, hf]
  rw [List.find?_map, hp]

theorem setBookingStatus_id (b : Booking) (bid : Nat) (s : Status) :
    (if b.id == bid then { b with status := s } else b).id = b.id := by
  split <;> rfl

theorem rejectOtherPending_id (b : Booking) (pid keep : Nat) :
    (if b.propertyId == pid && b.status == Status.PENDING && !(b.id == keep)
     then { b with status := Status.REJECTED } else b).id = b.id := by
  split <;> rfl

/-- In a list with distinct ids, two members with equal ids are equal. -/
theorem eq_of_id_eq_of_nodup {l : List Booking} (h : (l.map Booking.id).Nodup)
    {a b : Booking} (ha : a ∈ l) (hb : b ∈ l) (hid : a.id = b.id) : a = b :=
  List.inj_on_of_nodup_map h ha hb hid

theorem setBookingStatus_nextId (db : DB) (bid : Nat) (s : Status) :
    (setBookingStatus db bid s).nextId = db.nextId := rfl

theorem setPropertyBooked_nextId (db : DB) (pid : Nat) (t : String) :
    (setPropertyBooked db pid t).nextId = db.nextId := rfl

theorem rejectOtherPending_nextId (db : DB) (pid keep : Nat) :
    (rejectOtherPending db pid keep).nextId = db.nextId := rfl

theorem insertNotification_nextId (db : DB) (o t : Option String) (p b : Option Nat)
    (m : String) : (insertNotification db o t p b m).nextId = db.nextId + 1 := rfl

theorem setBookingStatus_bookings (db : DB) (bid : Nat) (s : Status) :
    (setBookingStatus db bid s).bookings =
      db.bookings.map (fun b => if b.id == bid then { b with status := s } else b) := rfl

theorem rejectOtherPending_bookings (db : DB) (pid keep : Nat) :
    (rejectOtherPending db pid keep).bookings =
      db.bookings.map (fun b =>
        if b.propertyId == pid && b.status == Status.PENDING && !(b.id == keep)
        then { b with status := Status.REJECTED } else b) := rfl

/-- Mapping can only lower a count when the map never creates a match. -/
theorem countP_map_le_of_imp (l : List Booking) (p : Booking → Bool) (f : Booking → Booking)
    (hf : ∀ b ∈ l, p (f b) = true → p b = true) :
    (l.map f).countP p ≤ l.countP p := by
  rw [List.countP_map]
  exact List.countP_mono_left hf

/-! Preservation of the APPROVED count by each operation. -/

theorem approvedCount_book_property (db : DB) (s : String) (pid0 : Nat) (m : SendOutcome)
    (pid : Nat) :
    approvedCount (book_property db s pid0 m).1 pid = approvedCount db pid := by
  cases h : findProperty db pid0 with
  | none => simp [book_property, h]
  | some prop =>
    simp [book_property, h, approvedCount, insertNotification, List.countP_append,
      isApprovedFor]

theorem approvedCount_owner_reject_le (db : DB) (s : String) (bid : Nat) (m : SendOutcome)
    (pid : Nat) (h1 : approvedCount db pid ≤ 1) :
    approvedCount (owner_reject_request db s bid m).1 pid ≤ 1 := by
  cases hb : findBooking db bid with
  | none => simpa [owner_reject_request, hb] using h1
  | some booking =>
    cases hp : findPropertyOwned db booking.propertyId s with
    | none => simpa [owner_reject_request, hb, hp] using h1
    | some prop =>
      simp only [owner_reject_request, hb, hp, approvedCount, insertNotification_bookings,
        setBookingStatus_bookings] at h1 ⊢
      refine le_trans (countP_map_le_of_imp _ _ _ ?_) h1
      intro b _ hpb
      by_cases hid : (b.id == booking.id) = true
      · simp [hid, isApprovedFor] at hpb
      · simpa [hid] using hpb

theorem approvedCount_owner_approve_le (db : DB) (s : String) (bid : Nat) (m : SendOutcome)
    (pid : Nat) (hwf : WF db) (h1 : approvedCount db pid ≤ 1) :
    approvedCount (owner_approve_request db s bid m).1 pid ≤ 1 := by
  obtain ⟨hnd, _⟩ := hwf
  cases hb : findBooking db bid with
  | none => simpa [owner_approve_request, hb] using h1
  | some booking =>
  cases hp : findPropertyOwned db booking.propertyId s with
  | none => simpa [owner_approve_request, hb, hp] using h1
  | some prop =>
  cases ha : findApproved db booking.propertyId with
  | some b2 => simpa [owner_approve_request, hb, hp, ha] using h1
  | none =>
  have hbmem : booking ∈ db.bookings := List.mem_of_find?_eq_some hb
  have h0 : ∀ b ∈ db.bookings, ¬ isApprovedFor booking.propertyId b = true :=
    List.find?_eq_none.mp ha
  simp only [owner_approve_request, hb, hp, ha, approvedCount, insertNotification_bookings,
    setPropertyBooked_bookings, rejectOtherPending_bookings, setBookingStatus_bookings] at h1 ⊢
  refine le_trans (countP_map_le_of_imp _ _ _ ?_) ?_
  · intro b _ hpb
    by_cases hc : (b.propertyId == booking.propertyId && b.status == Status.PENDING
        && !(b.id == booking.id)) = true
    · simp [hc, isApprovedFor] at hpb
    · simpa [hc] using hpb
  by_cases hpid : booking.propertyId = pid
  · subst hpid
    rw [List.countP_map]
    refine le_trans (List.countP_mono_left (q := fun b => b.id == booking.id) ?_) ?_
    · intro b hbm hpf
      by_cases hid : (b.id == booking.id) = true
      · exact hid
      · simp only [hid, if_neg, Bool.false_eq_true, if_false, Function.comp] at hpf
        exact absurd hpf (h0 b hbm)
    · have hcnt : db.bookings.countP (fun b => b.id == booking.id)
          = (db.bookings.map Booking.id).count booking.id := by
        rw [List.count_eq_countP, List.countP_map]
        rfl
      rw [hcnt]
      exact List.nodup_iff_count_le_one.mp hnd booking.id
  · refine le_trans (countP_map_le_of_imp _ _ _ ?_) h1
    intro b hbm hpb
    by_cases hid : (b.id == booking.id) = true
    · have hbeq : b = booking :=
        eq_of_id_eq_of_nodup hnd hbm hbmem (by simpa using hid)
      simp only [hid, if_pos] at hpb
      rw [isApprovedFor_iff] at hpb
      exact absurd (hbeq ▸ hpb.1) hpid
    · simpa [hid] using hpb

theorem approvedCount_step_le (db : DB) (op : Op) (pid : Nat) (hwf : WF db)
    (h1 : approvedCount db pid ≤ 1) : approvedCount (step db op) pid ≤ 1 := by
  cases op with
  | request s p m => rw [step, approvedCount_book_property]; exact h1
  | approve s b m => exact approvedCount_owner_approve_le db s b m pid hwf h1
  | reject s b m => exact approvedCount_owner_reject_le db s b m pid h1

/-! Preservation of well-formedness (unique, bounded ids) by each operation. -/

theorem WF_book_property (db : DB) (s : String) (pid : Nat) (m : SendOutcome)
    (h : WF db) : WF (book_property db s pid m).1 := by
  obtain ⟨hnd, hlt⟩ := h
  cases hp : findProperty db pid with
  | none => exact ⟨by simpa [book_property, hp] using hnd, by simpa [book_property, hp] using hlt⟩
  | some prop =>
    constructor
    · simp only [book_property, hp, insertNotification_bookings, List.map_append,
        List.map_cons, List.map_nil, List.nodup_append]
      refine ⟨hnd, List.nodup_singleton _, ?_⟩
      intro a ha hmem
      simp only [List.mem_singleton] at hmem
      obtain ⟨b, hb, hbid⟩ := List.mem_map.mp ha
      have := hlt b hb
      omega
    · intro b hb
      simp only [book_property, hp, insertNotification_bookings, List.mem_append,
        List.mem_singleton] at hb
      simp only [book_property, hp, insertNotification]
      rcases hb with hb | hb
      · have := hlt b hb
        omega
      · subst hb
        show db.nextId < db.nextId + 1 + 1
        omega

theorem WF_owner_approve (db : DB) (s : String) (bid : Nat) (m : SendOutcome)
    (h : WF db) : WF (owner_approve_request db s bid m).1 := by
  obtain ⟨hnd, hlt⟩ := h
  cases hb : findBooking db bid with
  | none => exact ⟨by simpa [owner_approve_request, hb] using hnd,
      by simpa [owner_approve_request, hb] using hlt⟩
  | some booking =>
  cases hp : findPropertyOwned db booking.propertyId s with
  | none => exact ⟨by simpa [owner_approve_request, hb, hp] using hnd,
      by simpa [owner_approve_request, hb, hp] using hlt⟩
  | some prop =>
  cases ha : findApproved db booking.propertyId with
  | some b2 => exact ⟨by simpa [owner_approve_request, hb, hp, ha] using hnd,
      by simpa [owner_approve_request, hb, hp, ha] using hlt⟩
  | none =>
  constructor
  · simp only [owner_approve_request, hb, hp, ha, insertNotification_bookings,
      setPropertyBooked_bookings, rejectOtherPending_bookings, setBookingStatus_bookings]
    rw [map_id_of_id_preserved _ _ (fun b => rejectOtherPending_id b _ _),
      map_id_of_id_preserved _ _ (fun b => setBookingStatus_id b _ _)]
    exact hnd
  · intro b hbm
    simp only [owner_approve_request, hb, hp, ha, insertNotification_bookings,
      setPropertyBooked_bookings, rejectOtherPending_bookings, setBookingStatus_bookings,
      List.mem_map] at hbm
    obtain ⟨b1, ⟨b0, hb0, hb1⟩, hb2⟩ := hbm
    have hid : b.id = b0.id := by
      subst hb1 hb2
      rw [rejectOtherPending_id, setBookingStatus_id]
    simp only [owner_approve_request, hb, hp, ha, insertNotification_nextId,
      rejectOtherPending_nextId, setPropertyBooked_nextId, setBookingStatus_nextId]
    have := hlt b0 hb0
    omega

theorem WF_owner_reject (db : DB) (s : String) (bid : Nat) (m : SendOutcome)
    (h : WF db) : WF (owner_reject_request db s bid m).1 := by
  obtain ⟨hnd, hlt⟩ := h
  cases hb : findBooking db bid with
  | none => exact ⟨by simpa [owner_reject_request, hb] using hnd,
      by simpa [owner_reject_request, hb] using hlt⟩
  | some booking =>
  cases hp : findPropertyOwned db booking.propertyId s with
  | none => exact ⟨by simpa [owner_reject_request, hb, hp] using hnd,
      by simpa [owner_reject_request, hb, hp] using hlt⟩
  | some prop =>
  constructor
  · simp only [owner_reject_request, hb, hp, insertNotification_bookings,
      setBookingStatus_bookings]
    rw [map_id_of_id_preserved _ _ (fun b => setBookingStatus_id b _ _)]
    exact hnd
  · intro b hbm
    simp only [owner_reject_request, hb, hp, insertNotification_bookings,
      setBookingStatus_bookings, List.mem_map] at hbm
    obtain ⟨b0, hb0, hb1⟩ := hbm
    have hid : b.id = b0.id := by
      subst hb1
      rw [setBookingStatus_id]
    simp only [owner_reject_request, hb, hp, insertNotification_nextId,
      setBookingStatus_nextId]
    have := hlt b0 hb0
    omega

theorem WF_step (db : DB) (op : Op) (h : WF db) : WF (step db op) := by
  cases op with
  | request s p m => exact WF_book_property db s p m h
  | approve s b m => exact WF_owner_approve db s b m h
  | reject s b m => exact WF_owner_reject db s b m h

/-! Concrete fixture states used to instantiate the theorems. -/

/-- A property with the given id and owner and all other fields fixed. -/
def mkProp (pid : Nat) (owner : String) : Property :=
  { id := pid, ownerEmail := owner, title := "Flat", description := "desc",
    location := "loc", price := 100, rooms := 2, images := [], reviews := [],
    booked := false, bookedBy := none }

/-- A booking with the given id, property, tenant and status. -/
def mkBooking (bid pid : Nat) (tenant : String) (st : Status) : Booking :=
  { id := bid, propertyId := pid, tenantEmail := tenant, tenantName := tenant,
    createdAt := 0, status := st }

/-- Property 0 owned by "o" with two PENDING bookings. -/
def exDB1 : DB :=
  { users := [{ email := "t1", name := some "Tenant One" }],
    props := [mkProp 0 "o"],
    bookings := [mkBooking 1 0 "t1" Status.PENDING, mkBooking 2 0 "t2" Status.PENDING],
    notifs := [], nextId := 3, now := 10 }

/-- A request, a successful approval, and two refused follow-ups. -/
def exOps1 : List Op :=
  [Op.request "t1" 0 SendOutcome.delivered,
   Op.approve "o" 1 SendOutcome.raised,
   Op.reject "o" 2 SendOutcome.delivered,
   Op.approve "o" 2 SendOutcome.delivered]

/-- C1: for every property, after any sequence of `book_property`,
`owner_approve_request` and `owner_reject_request` calls starting from a
state with no APPROVED booking for that property (and with the unique-`_id`
discipline Mongo maintains), at most one booking for that property has
status APPROVED: approval is guarded by `findApproved` and so refuses to
create a second APPROVED booking. -/
theorem exclusivity_invariant (db : DB) (ops : List Op) (pid : Nat)
    (hwf : WF db) (h0 : approvedCount db pid = 0) :
    approvedCount (run db ops) pid ≤ 1 := by
  have key : ∀ d : DB, WF d → approvedCount d pid ≤ 1 →
      approvedCount (run d ops) pid ≤ 1 := by
    induction ops with
    | nil => intro d _ h2; exact h2
    | cons op rest ih =>
      intro d h1 h2
      simp only [run, List.foldl_cons]
      exact ih (step d op) (WF_step d op h1) (approvedCount_step_le d op pid h1 h2)
  exact key db hwf (by omega)

/-- Instantiation of `exclusivity_invariant` on the concrete state `exDB1`
and operation sequence `exOps1`. -/
theorem exclusivity_invariant_witness : approvedCount (run exDB1 exOps1) 0 ≤ 1 :=
  exclusivity_invariant exDB1 exOps1 0 (by decide) (by decide)

/-! Status preservation facts for claim C2. -/

theorem approved_beq_pending : (Status.APPROVED == Status.PENDING) = false := rfl

theorem rejected_beq_pending : (Status.REJECTED == Status.PENDING) = false := rfl

/-- Inserting a booking never changes the status an existing booking id
resolves to (`find_one` by id returns the earlier document unchanged). -/
theorem bookingStatus_book_property (db : DB) (s : String) (pid : Nat) (m : SendOutcome)
    (i : Nat) (st : Status) (h : bookingStatus db i = some st) :
    bookingStatus (book_property db s pid m).1 i = some st := by
  cases hp : findProperty db pid with
  | none => simpa [book_property, hp] using h
  | some prop =>
    simp only [bookingStatus, findBooking] at h ⊢
    simp only [book_property, hp, insertNotification_bookings]
    rw [List.find?_append]
    cases hf : db.bookings.find? (fun b => b.id == i) with
    | none => rw [hf] at h; simp at h
    | some b =>
      rw [hf] at h
      simpa using h

/-- Every path of the approve route keeps an APPROVED booking APPROVED:
failure paths do not write, and the success path only writes APPROVED to the
target and REJECTED to PENDING bookings. -/
theorem approve_keeps_approved (db : DB) (s : String) (x : Nat) (m : SendOutcome)
    (i : Nat) (h : bookingStatus db i = some Status.APPROVED) :
    bookingStatus (owner_approve_request db s x m).1 i = some Status.APPROVED := by
  cases hb : findBooking db x with
  | none => simpa [owner_approve_request, hb] using h
  | some booking =>
  cases hp : findPropertyOwned db booking.propertyId s with
  | none => simpa [owner_approve_request, hb, hp] using h
  | some prop =>
  cases ha : findApproved db booking.propertyId with
  | some b2 => simpa [owner_approve_request, hb, hp, ha] using h
  | none =>
  simp only [bookingStatus, findBooking] at h ⊢
  simp only [owner_approve_request, hb, hp, ha, insertNotification_bookings,
    setPropertyBooked_bookings, rejectOtherPending_bookings, setBookingStatus_bookings]
  rw [find?_id_map _ _ (fun b => rejectOtherPending_id b _ _),
    find?_id_map _ _ (fun b => setBookingStatus_id b _ _)]
  cases hf : db.bookings.find? (fun b => b.id == i) with
  | none => rw [hf] at h; simp at h
  | some b =>
    rw [hf] at h
    have hbst : b.status = Status.APPROVED := by simpa using h
    by_cases hid : b.id = booking.id
    · simp [hid, hbst]
    · simp [hid, hbst]

/-- Every path of the reject route keeps a REJECTED booking REJECTED: the
only write sets the status to REJECTED. -/
theorem reject_keeps_rejected (db : DB) (s : String) (x : Nat) (m : SendOutcome)
    (i : Nat) (h : bookingStatus db i = some Status.REJECTED) :
    bookingStatus (owner_reject_request db s x m).1 i = some Status.REJECTED := by
  cases hb : findBooking db x with
  | none => simpa [owner_reject_request, hb] using h
  | some booking =>
  cases hp : findPropertyOwned db booking.propertyId s with
  | none => simpa [owner_reject_request, hb, hp] using h
  | some prop =>
  simp only [bookingStatus, findBooking] at h ⊢
  simp only [owner_reject_request, hb, hp, insertNotification_bookings,
    setBookingStatus_bookings]
  rw [find?_id_map _ _ (fun b => setBookingStatus_id b _ _)]
  cases hf : db.bookings.find? (fun b => b.id == i) with
  | none => rw [hf] at h; simp at h
  | some b =>
    rw [hf] at h
    have hbst : b.status = Status.REJECTED := by simpa using h
    by_cases hid : b.id = booking.id
    · simp [hid, hbst]
    · simp [hid, hbst]

/-- Property 0 owned by "o" with its single booking already APPROVED. -/
def exDB2a : DB :=
  { users := [], props := [mkProp 0 "o"],
    bookings := [mkBooking 0 0 "t" Status.APPROVED],
    notifs := [], nextId := 1, now := 0 }

/-- Property 0 owned by "o" with its single booking already REJECTED. -/
def exDB2b : DB :=
  { users := [], props := [mkProp 0 "o"],
    bookings := [mkBooking 0 0 "t" Status.REJECTED],
    notifs := [], nextId := 1, now := 0 }

/-- C2 counterexample: terminal states are not sinks in the code.  On
`exDB2a` the owner's reject call moves booking 0 from APPROVED to REJECTED
(`owner_reject_request` writes REJECTED without ever reading the current
status), and on `exDB2b` the owner's approve call moves booking 0 from
REJECTED back to APPROVED (the `findApproved` guard only looks for APPROVED
bookings).  Both transitions start from a terminal state, contradicting the
claim. -/
theorem terminal_monotonicity_cex :
    bookingStatus exDB2a 0 = some Status.APPROVED ∧
    (owner_reject_request exDB2a "o" 0 SendOutcome.delivered).2 = RejectResult.rejected ∧
    bookingStatus (owner_reject_request exDB2a "o" 0 SendOutcome.delivered).1 0
      = some Status.REJECTED ∧
    bookingStatus exDB2b 0 = some Status.REJECTED ∧
    (owner_approve_request exDB2b "o" 0 SendOutcome.delivered).2 = ApproveResult.approved ∧
    bookingStatus (owner_approve_request exDB2b "o" 0 SendOutcome.delivered).1 0
      = some Status.APPROVED := by
  decide

/-- C2 (amended): the transition system is monotone only operation-wise —
an APPROVED booking is never changed by any `owner_approve_request` call
(a second approval on its property fails with PropertyAlreadyBooked and an
approval elsewhere does not touch it), a REJECTED booking is never changed
by any `owner_reject_request` call, and `book_property` changes no
existing booking; however an APPROVED booking is moved to REJECTED by an
authorized reject call and a REJECTED booking can be re-approved, so
APPROVED and REJECTED are not terminal across operations. -/
theorem terminal_status_preservation (db : DB) (s : String) (x : Nat) (m : SendOutcome)
    (i : Nat) :
    (bookingStatus db i = some Status.APPROVED →
      bookingStatus (owner_approve_request db s x m).1 i = some Status.APPROVED) ∧
    (bookingStatus db i = some Status.REJECTED →
      bookingStatus (owner_reject_request db s x m).1 i = some Status.REJECTED) ∧
    (∀ st : Status, bookingStatus db i = some st →
      bookingStatus (book_property db s x m).1 i = some st) :=
  ⟨approve_keeps_approved db s x m i,
   reject_keeps_rejected db s x m i,
   fun st h => bookingStatus_book_property db s x m i st h⟩

/-- Instantiation of `terminal_status_preservation` on the concrete states
`exDB2a` and `exDB2b`. -/
theorem terminal_status_preservation_witness :
    bookingStatus (owner_approve_request exDB2a "o" 0 SendOutcome.delivered).1 0
      = some Status.APPROVED ∧
    bookingStatus (owner_reject_request exDB2b "o" 0 SendOutcome.delivered).1 0
      = some Status.REJECTED ∧
    bookingStatus (book_property exDB2a "t" 0 SendOutcome.delivered).1 0
      = some Status.APPROVED :=
  ⟨(terminal_status_preservation exDB2a "o" 0 SendOutcome.delivered 0).1 (by decide),
   (terminal_status_preservation exDB2b "o" 0 SendOutcome.delivered 0).2.1 (by decide),
   (terminal_status_preservation exDB2a "t" 0 SendOutcome.delivered 0).2.2
     Status.APPROVED (by decide)⟩

/-! Claim C3: characterisation of the PropertyAlreadyBooked failure. -/

/-- C3 counterexample: the code's already-booked check does not exclude the
booking being approved.  In `exDB2a` the only APPROVED booking for property
0 is booking 0 itself, yet `owner_approve_request` on booking 0 fails with
PropertyAlreadyBooked — so the failure does not happen exactly when
`findApproved` returns a *different* booking, as the claim states. -/
theorem already_booked_cex :
    owner_approve_request exDB2a "o" 0 SendOutcome.delivered
      = (exDB2a, ApproveResult.propertyAlreadyBooked) ∧
    (∀ b ∈ exDB2a.bookings, b.status = Status.APPROVED → b.id = 0) := by
  decide

/-- C3 (amended): an authorized approve call on an existing booking fails
with PropertyAlreadyBooked and performs no state change exactly when
`findApproved` on the booking's property returns *any* booking — including
the booking being approved itself, since the filter
`{"property_id": pid, "status": "APPROVED"}` carries no `_id` exclusion. -/
theorem already_booked_iff (db : DB) (s : String) (x : Nat) (m : SendOutcome)
    (booking : Booking) (hb : findBooking db x = some booking)
    (hp : (findPropertyOwned db booking.propertyId s).isSome = true) :
    owner_approve_request db s x m = (db, ApproveResult.propertyAlreadyBooked)
      ↔ (findApproved db booking.propertyId).isSome = true := by
  cases hpp : findPropertyOwned db booking.propertyId s with
  | none => rw [hpp] at hp; simp at hp
  | some prop =>
  cases ha : findApproved db booking.propertyId with
  | some b2 => simp [owner_approve_request, hb, hpp, ha]
  | none => simp [owner_approve_request, hb, hpp, ha]

/-- Instantiation of `already_booked_iff` on the concrete state `exDB2a`. -/
theorem already_booked_iff_witness :
    owner_approve_request exDB2a "o" 0 SendOutcome.delivered
      = (exDB2a, ApproveResult.propertyAlreadyBooked)
      ↔ (findApproved exDB2a 0).isSome = true :=
  already_booked_iff exDB2a "o" 0 SendOutcome.delivered
    (mkBooking 0 0 "t" Status.APPROVED) (by decide) (by decide)

/-! Claim C4: the effect of a successful approval. -/

/-- Searching a list with distinct ids for the id of a member finds exactly
that member. -/
theorem find?_eq_self_of_nodup {l : List Booking} (hnd : (l.map Booking.id).Nodup)
    {b : Booking} (hb : b ∈ l) : l.find? (fun c => c.id == b.id) = some b := by
  cases hf : l.find? (fun c => c.id == b.id) with
  | none =>
    have := List.find?_eq_none.mp hf b hb
    simp at this
  | some c =>
    have hcm := List.mem_of_find?_eq_some hf
    have hcid : c.id = b.id := by simpa using List.find?_some hf
    rw [eq_of_id_eq_of_nodup hnd hcm hb hcid]

/-- C4 counterexample: the code lets a successful approval target a booking
that is already terminal.  In `exDB2b` booking 0 is REJECTED (a terminal
state); the owner's approve call succeeds and changes its status to
APPROVED, so it is false that every booking of the property already in a
terminal state keeps its status across a successful approval. -/
theorem approve_effect_cex :
    (owner_approve_request exDB2b "o" 0 SendOutcome.delivered).2 = ApproveResult.approved ∧
    bookingStatus exDB2b 0 = some Status.REJECTED ∧
    bookingStatus (owner_approve_request exDB2b "o" 0 SendOutcome.delivered).1 0
      = some Status.APPROVED := by
  decide

/-- C4 (amended): after a successful `owner_approve_request` on booking id
`x`, the approved booking has status APPROVED, every *other* booking of the
same property that was PENDING immediately before is REJECTED immediately
after, every other booking not PENDING (i.e. already terminal) keeps its
status, and bookings of other properties are untouched.  (The approved
booking itself need not have been PENDING: a REJECTED booking can be
re-approved, see the counterexample.) -/
theorem approve_effect (db : DB) (s : String) (x : Nat) (m : SendOutcome)
    (booking : Booking) (hwf : WF db)
    (hb : findBooking db x = some booking)
    (hp : (findPropertyOwned db booking.propertyId s).isSome = true)
    (ha : findApproved db booking.propertyId = none) :
    (owner_approve_request db s x m).2 = ApproveResult.approved ∧
    bookingStatus (owner_approve_request db s x m).1 x = some Status.APPROVED ∧
    (∀ b ∈ db.bookings, b.id ≠ booking.id → b.propertyId = booking.propertyId →
      b.status = Status.PENDING →
      bookingStatus (owner_approve_request db s x m).1 b.id = some Status.REJECTED) ∧
    (∀ b ∈ db.bookings, b.id ≠ booking.id → b.status ≠ Status.PENDING →
      bookingStatus (owner_approve_request db s x m).1 b.id = some b.status) ∧
    (∀ b ∈ db.bookings, b.id ≠ booking.id → b.propertyId ≠ booking.propertyId →
      bookingStatus (owner_approve_request db s x m).1 b.id = some b.status) := by
  obtain ⟨hnd, _⟩ := hwf
  cases hpp : findPropertyOwned db booking.propertyId s with
  | none => rw [hpp] at hp; simp at hp
  | some prop =>
  have hxid : booking.id = x := by simpa using List.find?_some hb
  refine ⟨by simp [owner_approve_request, hb, hpp, ha], ?_, ?_, ?_, ?_⟩
  · have hb' : db.bookings.find? (fun b => b.id == x) = some booking := hb
    simp only [owner_approve_request, hb, hpp, ha]
    simp only [bookingStatus, findBooking, insertNotification_bookings,
      setPropertyBooked_bookings, rejectOtherPending_bookings, setBookingStatus_bookings]
    rw [find?_id_map _ _ (fun b => rejectOtherPending_id b _ _),
      find?_id_map _ _ (fun b => setBookingStatus_id b _ _), hb']
    simp [hxid]
  · intro b hbm hne hprop hpend
    simp only [owner_approve_request, hb, hpp, ha]
    simp only [bookingStatus, findBooking, insertNotification_bookings,
      setPropertyBooked_bookings, rejectOtherPending_bookings, setBookingStatus_bookings]
    rw [find?_id_map _ _ (fun b => rejectOtherPending_id b _ _),
      find?_id_map _ _ (fun b => setBookingStatus_id b _ _),
      find?_eq_self_of_nodup hnd hbm]
    simp [hne, hprop, hpend]
  · intro b hbm hne hterm
    simp only [owner_approve_request, hb, hpp, ha]
    simp only [bookingStatus, findBooking, insertNotification_bookings,
      setPropertyBooked_bookings, rejectOtherPending_bookings, setBookingStatus_bookings]
    rw [find?_id_map _ _ (fun b => rejectOtherPending_id b _ _),
      find?_id_map _ _ (fun b => setBookingStatus_id b _ _),
      find?_eq_self_of_nodup hnd hbm]
    simp [hne, hterm]
  · intro b hbm hne hprop
    simp only [owner_approve_request, hb, hpp, ha]
    simp only [bookingStatus, findBooking, insertNotification_bookings,
      setPropertyBooked_bookings, rejectOtherPending_bookings, setBookingStatus_bookings]
    rw [find?_id_map _ _ (fun b => rejectOtherPending_id b _ _),
      find?_id_map _ _ (fun b => setBookingStatus_id b _ _),
      find?_eq_self_of_nodup hnd hbm]
    simp [hne, hprop]

/-- Instantiation of `approve_effect` on `exDB1` (two PENDING bookings for
property 0; approving booking 1 auto-rejects booking 2). -/
theorem approve_effect_witness :
    (owner_approve_request exDB1 "o" 1 SendOutcome.delivered).2 = ApproveResult.approved ∧
    bookingStatus (owner_approve_request exDB1 "o" 1 SendOutcome.delivered).1 1
      = some Status.APPROVED ∧
    bookingStatus (owner_approve_request exDB1 "o" 1 SendOutcome.delivered).1 2
      = some Status.REJECTED := by
  have h := approve_effect exDB1 "o" 1 SendOutcome.delivered
    (mkBooking 1 0 "t1" Status.PENDING) (by decide) (by decide) (by decide) (by decide)
  refine ⟨h.1, h.2.1, ?_⟩
  exact h.2.2.1 (mkBooking 2 0 "t2" Status.PENDING) (by decide) (by decide)
    (by decide) (by decide)

/-! Claim C5: authorization failures change nothing. -/

/-- C5: when the booking exists but the acting identity owns no property
record with the booking's property id (whether the property belongs to
someone else or is missing), both the approve and the reject route return
NotAuthorized and leave the whole state — bookings, properties,
notifications — unchanged. -/
theorem not_authorized_no_change (db : DB) (s : String) (x : Nat) (m : SendOutcome)
    (booking : Booking) (hb : findBooking db x = some booking)
    (hown : ∀ p ∈ db.props, p.id = booking.propertyId → p.ownerEmail ≠ s) :
    owner_approve_request db s x m = (db, ApproveResult.notAuthorized) ∧
    owner_reject_request db s x m = (db, RejectResult.notAuthorized) := by
  have hpp : findPropertyOwned db booking.propertyId s = none := by
    rw [findPropertyOwned, List.find?_eq_none]
    intro p hp hcontra
    simp only [Bool.and_eq_true, beq_iff_eq] at hcontra
    exact hown p hp hcontra.1 hcontra.2
  exact ⟨by simp [owner_approve_request, hb, hpp],
    by simp [owner_reject_request, hb, hpp]⟩

/-- Instantiation of `not_authorized_no_change`: the stranger "x" tries to
approve and reject booking 1 of `exDB1`, whose property belongs to "o". -/
theorem not_authorized_no_change_witness :
    owner_approve_request exDB1 "x" 1 SendOutcome.delivered
      = (exDB1, ApproveResult.notAuthorized) ∧
    owner_reject_request exDB1 "x" 1 SendOutcome.delivered
      = (exDB1, RejectResult.notAuthorized) :=
  not_authorized_no_change exDB1 "x" 1 SendOutcome.delivered
    (mkBooking 1 0 "t1" Status.PENDING) (by decide) (by decide)

/-! Success-path equations for the three routes. -/

theorem setBookingStatus_notifs (db : DB) (bid : Nat) (s : Status) :
    (setBookingStatus db bid s).notifs = db.notifs := rfl

theorem setPropertyBooked_notifs (db : DB) (pid : Nat) (t : String) :
    (setPropertyBooked db pid t).notifs = db.notifs := rfl

theorem rejectOtherPending_notifs (db : DB) (pid keep : Nat) :
    (rejectOtherPending db pid keep).notifs = db.notifs := rfl

theorem insertNotification_notifs (db : DB) (o t : Option String) (p b : Option Nat)
    (m : String) :
    (insertNotification db o t p b m).notifs = db.notifs ++
      [{ id := db.nextId, ownerEmail := o, tenantEmail := t, propertyId := p,
         bookingId := b, message := m, timestamp := db.now, read := false }] := rfl

/-- Equation for the success path of `book_property`. -/
theorem book_property_success (db : DB) (s : String) (pid : Nat) (m : SendOutcome)
    (prop : Property) (h : findProperty db pid = some prop) :
    book_property db s pid m =
      ({ db with
          bookings := db.bookings ++
            [{ id := db.nextId, propertyId := pid, tenantEmail := s,
               tenantName := tenantDisplayName db s, createdAt := db.now,
               status := Status.PENDING }],
          notifs := db.notifs ++
            [{ id := db.nextId + 1, ownerEmail := some prop.ownerEmail, tenantEmail := none,
               propertyId := some pid, bookingId := none,
               message := "New booking request from " ++ tenantDisplayName db s
                 ++ " (" ++ s ++ ")",
               timestamp := db.now, read := false }],
          nextId := db.nextId + 2 },
        RequestResult.requested db.nextId) := by
  simp only [book_property, h]
  rfl

/-- Equation for the success path of `owner_approve_request`. -/
theorem owner_approve_request_success (db : DB) (s : String) (x : Nat) (m : SendOutcome)
    (booking : Booking) (prop : Property)
    (hb : findBooking db x = some booking)
    (hpp : findPropertyOwned db booking.propertyId s = some prop)
    (ha : findApproved db booking.propertyId = none) :
    owner_approve_request db s x m =
      (insertNotification
        (rejectOtherPending
          (setPropertyBooked (setBookingStatus db booking.id Status.APPROVED)
            booking.propertyId booking.tenantEmail)
          booking.propertyId booking.id)
        (some s) (some booking.tenantEmail) (some booking.propertyId) (some booking.id)
        "Your booking has been APPROVED by the owner.",
       ApproveResult.approved) := by
  simp only [owner_approve_request, hb, hpp, ha]

/-- Equation for the success path of `owner_reject_request`. -/
theorem owner_reject_request_success (db : DB) (s : String) (x : Nat) (m : SendOutcome)
    (booking : Booking) (prop : Property)
    (hb : findBooking db x = some booking)
    (hpp : findPropertyOwned db booking.propertyId s = some prop) :
    owner_reject_request db s x m =
      (insertNotification (setBookingStatus db booking.id Status.REJECTED)
        (some s) (some booking.tenantEmail) (some booking.propertyId) (some booking.id)
        "Your booking has been REJECTED by the owner.",
       RejectResult.rejected) := by
  simp only [owner_reject_request, hb, hpp]

/-! Claim C6: exactly one notification per successful operation. -/

/-- C6: every successful request, approval and rejection appends exactly one
new notification, addressed to the counter-party: the request notification
carries the property owner's email (and no tenant email), and the approve
and reject notifications carry the booking's tenant email.  In particular a
successful approval appends a single notification, so the auto-rejected
tenants receive none. -/
theorem notification_on_transition
    (db1 : DB) (s1 : String) (pid : Nat) (prop : Property) (m1 : SendOutcome)
    (db2 : DB) (s2 : String) (x2 : Nat) (b2 : Booking) (p2 : Property) (m2 : SendOutcome)
    (db3 : DB) (s3 : String) (x3 : Nat) (b3 : Booking) (p3 : Property) (m3 : SendOutcome)
    (h1 : findProperty db1 pid = some prop)
    (hb2 : findBooking db2 x2 = some b2)
    (hp2 : findPropertyOwned db2 b2.propertyId s2 = some p2)
    (ha2 : findApproved db2 b2.propertyId = none)
    (hb3 : findBooking db3 x3 = some b3)
    (hp3 : findPropertyOwned db3 b3.propertyId s3 = some p3) :
    (∃ n : Notification, (book_property db1 s1 pid m1).1.notifs = db1.notifs ++ [n] ∧
      n.ownerEmail = some prop.ownerEmail ∧ n.tenantEmail = none ∧ n.read = false) ∧
    (∃ n : Notification, (owner_approve_request db2 s2 x2 m2).1.notifs = db2.notifs ++ [n] ∧
      n.tenantEmail = some b2.tenantEmail ∧ n.read = false) ∧
    (∃ n : Notification, (owner_reject_request db3 s3 x3 m3).1.notifs = db3.notifs ++ [n] ∧
      n.tenantEmail = some b3.tenantEmail ∧ n.read = false) := by
  refine ⟨?_, ?_, ?_⟩
  · rw [book_property_success db1 s1 pid m1 prop h1]
    exact ⟨_, rfl, rfl, rfl, rfl⟩
  · rw [owner_approve_request_success db2 s2 x2 m2 b2 p2 hb2 hp2 ha2]
    rw [insertNotification_notifs]
    rw [rejectOtherPending_notifs, setPropertyBooked_notifs, setBookingStatus_notifs]
    exact ⟨_, rfl, rfl, rfl⟩
  · rw [owner_reject_request_success db3 s3 x3 m3 b3 p3 hb3 hp3]
    rw [insertNotification_notifs, setBookingStatus_notifs]
    exact ⟨_, rfl, rfl, rfl⟩

/-- Instantiation of `notification_on_transition` on `exDB1`. -/
theorem notification_on_transition_witness :
    (∃ n : Notification,
      (book_property exDB1 "t1" 0 SendOutcome.delivered).1.notifs = exDB1.notifs ++ [n] ∧
      n.ownerEmail = some (mkProp 0 "o").ownerEmail ∧ n.tenantEmail = none ∧
      n.read = false) ∧
    (∃ n : Notification,
      (owner_approve_request exDB1 "o" 1 SendOutcome.delivered).1.notifs
        = exDB1.notifs ++ [n] ∧
      n.tenantEmail = some (mkBooking 1 0 "t1" Status.PENDING).tenantEmail ∧
      n.read = false) ∧
    (∃ n : Notification,
      (owner_reject_request exDB1 "o" 2 SendOutcome.raised).1.notifs
        = exDB1.notifs ++ [n] ∧
      n.tenantEmail = some (mkBooking 2 0 "t2" Status.PENDING).tenantEmail ∧
      n.read = false) :=
  notification_on_transition exDB1 "t1" 0 (mkProp 0 "o") SendOutcome.delivered
    exDB1 "o" 1 (mkBooking 1 0 "t1" Status.PENDING) (mkProp 0 "o") SendOutcome.delivered
    exDB1 "o" 2 (mkBooking 2 0 "t2" Status.PENDING) (mkProp 0 "o") SendOutcome.raised
    (by decide) (by decide) (by decide) (by decide) (by decide) (by decide)

/-! Claim C7: transport failures are invisible. -/

/-- C7: the persisted state and the caller-visible result of each booking
route are identical whether the SMTP attempt completes or raises: both
`send_email` and its call sites swallow the failure, which is only printed,
never surfaced or rolled back. -/
theorem delivery_isolation (db : DB) (s : String) (x : Nat) (m1 m2 : SendOutcome) :
    book_property db s x m1 = book_property db s x m2 ∧
    owner_approve_request db s x m1 = owner_approve_request db s x m2 ∧
    owner_reject_request db s x m1 = owner_reject_request db s x m2 := by
  refine ⟨?_, ?_, ?_⟩ <;> cases m1 <;> cases m2 <;> rfl

/-! Claim C8: requests insert unconditionally. -/

/-- The PENDING booking document `book_property` inserts. -/
def requestedBooking (db : DB) (s : String) (pid : Nat) : Booking :=
  { id := db.nextId, propertyId := pid, tenantEmail := s,
    tenantName := tenantDisplayName db s, createdAt := db.now, status := Status.PENDING }

/-- C8: whenever the property exists, `book_property` inserts a new PENDING
booking stamped with the current clock and succeeds — its only precondition
is existence, so in particular the insertion also goes through when the
property already has an APPROVED booking (no `findApproved` check is made);
and a repeated request by the same tenant appends a second, separate
booking document with a distinct id. -/
theorem request_always_inserts (db : DB) (s : String) (pid : Nat) (m : SendOutcome)
    (prop : Property) (h : findProperty db pid = some prop) :
    (book_property db s pid m).2 = RequestResult.requested db.nextId ∧
    (book_property db s pid m).1.bookings = db.bookings ++ [requestedBooking db s pid] ∧
    (book_property (book_property db s pid m).1 s pid m).1.bookings
      = db.bookings ++ [requestedBooking db s pid,
          requestedBooking (book_property db s pid m).1 s pid] ∧
    (requestedBooking db s pid).id ≠ (requestedBooking (book_property db s pid m).1 s pid).id := by
  have e1 := book_property_success db s pid m prop h
  have h2 : findProperty (book_property db s pid m).1 pid = some prop := by
    rw [e1]
    exact h
  have e2 := book_property_success (book_property db s pid m).1 s pid m prop h2
  refine ⟨by rw [e1], by rw [e1]; rfl, ?_, ?_⟩
  · rw [e2, e1]
    simp [requestedBooking, tenantDisplayName, findUser]
  · rw [e1]
    simp [requestedBooking]

/-- Instantiation of `request_always_inserts` on `exDB2a`, whose property 0
is already booked (its booking 0 is APPROVED): the request still succeeds
and inserts, and a second request inserts again with a fresh id. -/
theorem request_always_inserts_witness :
    (book_property exDB2a "t2" 0 SendOutcome.delivered).2
      = RequestResult.requested exDB2a.nextId ∧
    (book_property exDB2a "t2" 0 SendOutcome.delivered).1.bookings
      = exDB2a.bookings ++ [requestedBooking exDB2a "t2" 0] ∧
    (book_property (book_property exDB2a "t2" 0 SendOutcome.delivered).1 "t2" 0
        SendOutcome.delivered).1.bookings
      = exDB2a.bookings ++ [requestedBooking exDB2a "t2" 0,
          requestedBooking (book_property exDB2a "t2" 0 SendOutcome.delivered).1 "t2" 0] ∧
    (requestedBooking exDB2a "t2" 0).id
      ≠ (requestedBooking (book_property exDB2a "t2" 0 SendOutcome.delivered).1 "t2" 0).id :=
  request_always_inserts exDB2a "t2" 0 SendOutcome.delivered (mkProp 0 "o") (by decide)

/-! Claim C9: the booking engine's property frame. -/

/-- Every property field except the derived `booked` / `booked_by` pair. -/
def frameView (p : Property) :
    Nat × String × String × String × String × Nat × Nat × List String × List Review :=
  (p.id, p.ownerEmail, p.title, p.description, p.location, p.price, p.rooms,
    p.images, p.reviews)

/-- C9: the booking routes never write any property field other than the
derived booked flag and booked-by identity: `book_property` and
`owner_reject_request` leave the `properties` collection untouched, and
`owner_approve_request` (whose success path sets `booked` / `booked_by`)
preserves identifier, owner, title, description, location, price, rooms,
images and reviews of every property. -/
theorem property_frame (db : DB) (s : String) (x : Nat) (m : SendOutcome) :
    (book_property db s x m).1.props = db.props ∧
    (owner_reject_request db s x m).1.props = db.props ∧
    ((owner_approve_request db s x m).1.props).map frameView = db.props.map frameView := by
  refine ⟨?_, ?_, ?_⟩
  · cases h : findProperty db x with
    | none => simp [book_property, h]
    | some prop => rw [book_property_success db s x m prop h]
  · cases hb : findBooking db x with
    | none => simp [owner_reject_request, hb]
    | some booking =>
      cases hpp : findPropertyOwned db booking.propertyId s with
      | none => simp [owner_reject_request, hb, hpp]
      | some prop =>
        rw [owner_reject_request_success db s x m booking prop hb hpp,
          insertNotification_props, setBookingStatus_props]
  · cases hb : findBooking db x with
    | none => simp [owner_approve_request, hb]
    | some booking =>
      cases hpp : findPropertyOwned db booking.propertyId s with
      | none => simp [owner_approve_request, hb, hpp]
      | some prop =>
        cases ha : findApproved db booking.propertyId with
        | some b2 => simp [owner_approve_request, hb, hpp, ha]
        | none =>
          rw [owner_approve_request_success db s x m booking prop hb hpp ha,
            insertNotification_props, rejectOtherPending_props]
          show (db.props.map _).map frameView = _
          rw [List.map_map]
          refine List.map_congr_left ?_
          intro p _
          by_cases hid : p.id = booking.propertyId
          · simp [Function.comp, hid, frameView]
          · simp [Function.comp, hid, frameView]

/-! Claim C10: who may set a notification's read flag. -/

/-- A single unread notification addressed to tenant "t" about owner "o"'s
property. -/
def exDBn : DB :=
  { users := [], props := [], bookings := [],
    notifs := [{ id := 0, ownerEmail := some "o", tenantEmail := some "t",
                 propertyId := some 0, bookingId := none, message := "msg",
                 timestamp := 0, read := false }],
    nextId := 1, now := 5 }

/-- C10 counterexample: `mark_notification_read` performs no recipient
check — after the login gate it updates by `_id` alone.  The identity
"intruder" is neither the owner nor the tenant of the only notification of
`exDBn`, yet its markRead call flips the read flag to true, so the flag is
not mutable only by the recipient. -/
theorem mark_read_cex :
    exDBn.notifs.map Notification.read = [false] ∧
    (mark_notification_read exDBn "intruder" 0).notifs.map Notification.read = [true] ∧
    (∀ n ∈ exDBn.notifs, n.ownerEmail ≠ some "intruder" ∧ n.tenantEmail ≠ some "intruder") := by
  decide

/-- C10 (amended): `mark_notification_read` behaves identically for every
logged-in caller — the session identity is never compared against the
notification's recipients — and it sets the read flag of the matching
notification while leaving bookings, properties and the non-matching
notifications unchanged. -/
theorem mark_read_any_identity (db : DB) (s1 s2 : String) (nid : Nat) :
    mark_notification_read db s1 nid = mark_notification_read db s2 nid ∧
    (mark_notification_read db s1 nid).bookings = db.bookings ∧
    (mark_notification_read db s1 nid).props = db.props ∧
    ∀ n ∈ db.notifs,
      (n.id ≠ nid → n ∈ (mark_notification_read db s1 nid).notifs) ∧
      (n.id = nid → { n with read := true } ∈ (mark_notification_read db s1 nid).notifs) := by
  refine ⟨rfl, rfl, rfl, ?_⟩
  intro n hn
  constructor
  · intro hne
    exact List.mem_map.mpr ⟨n, hn, by simp [hne]⟩
  · intro heq
    exact List.mem_map.mpr ⟨n, hn, by simp [heq]⟩

/-- Instantiation of `mark_read_any_identity` on `exDBn`. -/
theorem mark_read_any_identity_witness :
    mark_notification_read exDBn "a" 0 = mark_notification_read exDBn "b" 0 ∧
    ({ id := 0, ownerEmail := some "o", tenantEmail := some "t", propertyId := some 0,
       bookingId := none, message := "msg", timestamp := 0, read := true } : Notification)
      ∈ (mark_notification_read exDBn "a" 0).notifs :=
  ⟨(mark_read_any_identity exDBn "a" "b" 0).1,
   ((mark_read_any_identity exDBn "a" "b" 0).2.2.2
     { id := 0, ownerEmail := some "o", tenantEmail := some "t", propertyId := some 0,
       bookingId := none, message := "msg", timestamp := 0, read := false }
     (by decide)).2 (by decide)⟩

end Rental
